import Mathlib

/-!
Verification of the FlashFix job-dispatch application.

This file shallowly embeds the two sources of truth of the repository:

* the SQL schema and row-level-security (RLS) policy script
  (tables `profiles`, `contractors`, `jobs`, the RLS policies, the
  `get_all_users` / `delete_user` security-definer procedures, and the
  CHECK constraints and foreign-key delete actions), and
* the client-side application-state controller in `App.tsx`
  (`fetchJobs`, `fetchContractors`, `handleAssignJob`,
  `handleUpdateJobStatus`) together with the record types of `types.ts`.

Database scalar conventions: UUIDs are modelled as `Nat`, timestamps and
dates as `Nat`, `NUMERIC(2,1)` ratings as `ℚ`, SQL `NULL`able columns as
`Option`.  All modelled callers are authenticated (they carry a `uid`),
matching the `TO authenticated` / `auth.uid()` context of the policies.
-/

namespace FlashFix

/-- A row of `public.profiles`: `id UUID PRIMARY KEY`, `role TEXT`. -/
structure Profile where
  id : Nat
  role : String
deriving DecidableEq, Repr

/-- A row of `public.contractors`. -/
structure ContractorRow where
  id : Nat
  user_id : Option Nat
  name : String
  specialty : Option String
  rating : Option ℚ
  avatar : Option String
  created_at : Nat
deriving DecidableEq, Repr

/-- A row of `public.jobs`. -/
structure JobRow where
  id : Nat
  unit : String
  client_name : String
  client_email : Option String
  address : String
  service_type : String
  service_date : Nat
  lockbox : Option String
  status : String
  checklist_notes : Option String
  created_at : Nat
  contractor_id : Option Nat
deriving DecidableEq, Repr

/-- A row of `auth.users` (the fields the repository reads). -/
structure AuthUser where
  id : Nat
  email : String
  created_at : Nat
deriving DecidableEq, Repr

/-- The database state: `auth.users` plus the three public tables. -/
structure Db where
  users : List AuthUser
  profiles : List Profile
  contractors : List ContractorRow
  jobs : List JobRow
deriving DecidableEq, Repr

/-- The scalar sub-select `(SELECT role FROM public.profiles WHERE id = auth.uid())`
used by every RLS policy; `id` is the primary key, so at most one row matches. -/
def roleOf (db : Db) (uid : Nat) : Option String :=
  (db.profiles.find? (fun p => p.id == uid)).map Profile.role

/-- `(SELECT role FROM public.profiles WHERE id = auth.uid()) = r`. -/
def roleIs (db : Db) (uid : Nat) (r : String) : Bool :=
  roleOf db uid == some r

/-- The sub-query of the two contractor policies on `jobs`:
`contractor_id IN (SELECT id FROM public.contractors WHERE user_id = auth.uid())`.
A `NULL` `contractor_id` is never `IN` the set. -/
def assignedToCaller (db : Db) (uid : Nat) (row : JobRow) : Bool :=
  db.contractors.any (fun c => c.user_id == some uid && some c.id == row.contractor_id)

/- RLS policies for `profiles`:
   "Allow admin full access on profiles" (FOR ALL) and
   "Allow users to view their own profile" (FOR SELECT, `auth.uid() = id`). -/

/-- May `uid` SELECT this `profiles` row? -/
def profilesSelectAllowed (db : Db) (uid : Nat) (row : Profile) : Bool :=
  roleIs db uid "admin" || uid == row.id

/-- May `uid` INSERT into `profiles`? (only the admin FOR ALL policy applies) -/
def profilesInsertAllowed (db : Db) (uid : Nat) : Bool :=
  roleIs db uid "admin"

/-- May `uid` UPDATE this `profiles` row? -/
def profilesUpdateAllowed (db : Db) (uid : Nat) (_row : Profile) : Bool :=
  roleIs db uid "admin"

/-- May `uid` DELETE this `profiles` row? -/
def profilesDeleteAllowed (db : Db) (uid : Nat) (_row : Profile) : Bool :=
  roleIs db uid "admin"

/- RLS policies for `contractors`:
   "Allow admin full access on contractors" (FOR ALL),
   "Allow authenticated users to read contractors" (FOR SELECT TO authenticated USING (true)),
   "Allow PMs to create/update contractors" (FOR ALL USING (role = 'pm')).
   A FOR ALL policy covers SELECT, INSERT, UPDATE and DELETE; its USING
   expression also serves as the WITH CHECK expression for INSERT. -/

/-- May `uid` SELECT this `contractors` row? -/
def contractorsSelectAllowed (db : Db) (uid : Nat) (_row : ContractorRow) : Bool :=
  roleIs db uid "admin" || true || roleIs db uid "pm"

/-- May `uid` INSERT into `contractors`? -/
def contractorsInsertAllowed (db : Db) (uid : Nat) : Bool :=
  roleIs db uid "admin" || roleIs db uid "pm"

/-- May `uid` UPDATE this `contractors` row? -/
def contractorsUpdateAllowed (db : Db) (uid : Nat) (_row : ContractorRow) : Bool :=
  roleIs db uid "admin" || roleIs db uid "pm"

/-- May `uid` DELETE this `contractors` row?  Both the admin policy and the
PM policy are FOR ALL, so both reach DELETE. -/
def contractorsDeleteAllowed (db : Db) (uid : Nat) (_row : ContractorRow) : Bool :=
  roleIs db uid "admin" || roleIs db uid "pm"

/- RLS policies for `jobs`:
   "Allow admin full access on jobs" (FOR ALL),
   "Allow PMs to read all jobs" (FOR SELECT),
   "Allow assigned contractors to read their jobs" (FOR SELECT),
   "Allow PMs to create jobs" (FOR INSERT),
   "Allow PMs to update jobs" (FOR UPDATE),
   "Allow assigned contractors to update their job status" (FOR UPDATE). -/

/-- May `uid` SELECT this `jobs` row? -/
def jobsSelectAllowed (db : Db) (uid : Nat) (row : JobRow) : Bool :=
  roleIs db uid "admin" || roleIs db uid "pm" ||
    (roleIs db uid "contractor" && assignedToCaller db uid row)

/-- May `uid` INSERT into `jobs`? -/
def jobsInsertAllowed (db : Db) (uid : Nat) : Bool :=
  roleIs db uid "admin" || roleIs db uid "pm"

/-- May `uid` UPDATE this `jobs` row? -/
def jobsUpdateAllowed (db : Db) (uid : Nat) (row : JobRow) : Bool :=
  roleIs db uid "admin" || roleIs db uid "pm" ||
    (roleIs db uid "contractor" && assignedToCaller db uid row)

/-- May `uid` DELETE this `jobs` row?  Only the admin FOR ALL policy reaches DELETE. -/
def jobsDeleteAllowed (db : Db) (uid : Nat) (_row : JobRow) : Bool :=
  roleIs db uid "admin"

/- Security-definer RPC procedures (Step 10 of the schema script). -/

/-- The guard both procedures run first:
`EXISTS (SELECT 1 FROM public.profiles p WHERE p.id = auth.uid() AND p.role = 'admin')`. -/
def isAdminCheck (db : Db) (uid : Nat) : Bool :=
  db.profiles.any (fun p => p.id == uid && p.role == "admin")

/-- One row of `get_all_users`: `(id, email, role, created_at)`. -/
structure UserRow where
  id : Nat
  email : String
  role : String
  created_at : Nat
deriving DecidableEq, Repr

/-- `get_all_users()`: raises unless the caller is an admin, then returns
`auth.users` joined with `public.profiles` on `id`.  A raised exception is
modelled as `Except.error` with the procedure's message. -/
def get_all_users (db : Db) (uid : Nat) : Except String (List UserRow) :=
  if isAdminCheck db uid then
    Except.ok (db.users.filterMap (fun u =>
      (db.profiles.find? (fun p => p.id == u.id)).map (fun p =>
        { id := u.id, email := u.email, role := p.role, created_at := u.created_at })))
  else
    Except.error "Only admins can view all users"

/-- The foreign-key consequences of `DELETE FROM auth.users WHERE id = target`:
the profile row cascades away (`profiles.id ... ON DELETE CASCADE`) and any
contractor linked to the identity keeps its row with the link cleared
(`contractors.user_id ... ON DELETE SET NULL`). -/
def deleteAuthUserCascade (db : Db) (target : Nat) : Db :=
  { users := db.users.filter (fun u => u.id != target)
    profiles := db.profiles.filter (fun p => p.id != target)
    contractors := db.contractors.map (fun c =>
      if c.user_id == some target then { c with user_id := none } else c)
    jobs := db.jobs }

/-- `delete_user(user_id)`: raises unless the caller is an admin, then deletes
the identity (with foreign-key cascades).  The returned pair carries the
resulting database state, which on a raised exception is the unchanged input. -/
def delete_user (db : Db) (uid : Nat) (target : Nat) : Db × Except String Unit :=
  if isAdminCheck db uid then
    (deleteAuthUserCascade db target, Except.ok ())
  else
    (db, Except.error "Only admins can delete users")

/-- The foreign-key consequences of deleting a contractor row: any job that
referenced it keeps its row with the reference cleared
(`jobs.contractor_id ... ON DELETE SET NULL`). -/
def deleteContractorCascade (db : Db) (cid : Nat) : Db :=
  { db with
    contractors := db.contractors.filter (fun c => c.id != cid)
    jobs := db.jobs.map (fun j =>
      if j.contractor_id == some cid then { j with contractor_id := none } else j) }

/- CHECK constraints of the schema, evaluated by the storage layer on every
inserted or updated row (a NULL column satisfies a CHECK). -/

/-- `profiles.role CHECK (role IN ('pm', 'contractor', 'admin'))`. -/
def roleCheck (r : String) : Bool :=
  r == "pm" || r == "contractor" || r == "admin"

/-- `contractors.rating CHECK (rating >= 0 AND rating <= 5)`; a NULL rating passes. -/
def ratingCheck : Option ℚ → Bool
  | none => true
  | some r => decide (0 ≤ r) && decide (r ≤ 5)

/-- `jobs.status CHECK (status IN ('Pending', 'In Progress', 'Completed'))`. -/
def statusCheck (s : String) : Bool :=
  s == "Pending" || s == "In Progress" || s == "Completed"

/-- INSERT into `profiles`: the storage layer admits the row only if its
`role` passes the CHECK constraint; otherwise the statement fails and the
state is unchanged. -/
def insertProfile (db : Db) (p : Profile) : Except String Db :=
  if roleCheck p.role then
    Except.ok { db with profiles := db.profiles ++ [p] }
  else
    Except.error "profiles_role_check"

/-- UPDATE of a `profiles` row's `role`: every updated row must pass the
CHECK constraint, else the statement fails and the state is unchanged. -/
def updateProfileRole (db : Db) (pid : Nat) (newRole : String) : Except String Db :=
  if db.profiles.any (fun p => p.id == pid) && !roleCheck newRole then
    Except.error "profiles_role_check"
  else
    Except.ok { db with profiles := db.profiles.map (fun p =>
      if p.id == pid then { p with role := newRole } else p) }

/-- INSERT into `contractors`: the row's `rating` must pass the CHECK constraint. -/
def insertContractor (db : Db) (c : ContractorRow) : Except String Db :=
  if ratingCheck c.rating then
    Except.ok { db with contractors := db.contractors ++ [c] }
  else
    Except.error "contractors_rating_check"

/-- UPDATE of a `contractors` row's `rating`: every updated row must pass the
CHECK constraint, else the statement fails and the state is unchanged. -/
def updateContractorRating (db : Db) (cid : Nat) (newRating : Option ℚ) : Except String Db :=
  if db.contractors.any (fun c => c.id == cid) && !ratingCheck newRating then
    Except.error "contractors_rating_check"
  else
    Except.ok { db with contractors := db.contractors.map (fun c =>
      if c.id == cid then { c with rating := newRating } else c) }

/-- INSERT into `jobs`: the row's `status` must pass the CHECK constraint. -/
def insertJob (db : Db) (j : JobRow) : Except String Db :=
  if statusCheck j.status then
    Except.ok { db with jobs := db.jobs ++ [j] }
  else
    Except.error "jobs_status_check"

/-- UPDATE of a `jobs` row's `status`: every updated row must pass the
CHECK constraint, else the statement fails and the state is unchanged. -/
def updateJobRowStatus (db : Db) (jid : Nat) (newStatus : String) : Except String Db :=
  if db.jobs.any (fun j => j.id == jid) && !statusCheck newStatus then
    Except.error "jobs_status_check"
  else
    Except.ok { db with jobs := db.jobs.map (fun j =>
      if j.id == jid then { j with status := newStatus } else j) }

/- Client side (`types.ts` and `App.tsx`). -/

/-- The `Contractor` interface of `types.ts`. -/
structure Contractor where
  id : Nat
  name : String
  specialty : String
  rating : ℚ
  avatar : String
deriving DecidableEq, Repr

/-- The `Job` interface of `types.ts` (optional fields as `Option`). -/
structure Job where
  id : Nat
  unit : String
  client_name : String
  client_email : String
  address : String
  service_type : String
  service_date : String
  lockbox : String
  status : String
  checklist_notes : Option String
  created_at : Option String
  contractor_id : Option Nat
  contractor_name : Option String
deriving DecidableEq, Repr

/-- The shape of the joined `contractors(name)` field in a row returned by
the jobs query: `null`, a single object, or (defensively handled by the
client) an array of objects. -/
inductive ContractorsJoin where
  | nullJoin : ContractorsJoin
  | oneJoin : String → ContractorsJoin
  | manyJoin : List String → ContractorsJoin
deriving DecidableEq, Repr

/-- A raw row of `select('*, contractors(name)')` on `jobs` as the client
receives it: all job columns plus the joined `contractors` field. -/
structure RawJob where
  id : Nat
  unit : String
  client_name : String
  client_email : String
  address : String
  service_type : String
  service_date : String
  lockbox : String
  status : String
  checklist_notes : Option String
  created_at : Option String
  contractor_id : Option Nat
  contractors : ContractorsJoin
deriving DecidableEq, Repr

/-- The per-row mapping inside `fetchJobs`: derives `contractor_name` from the
joined field and drops the field.  In the array branch the client writes
`newJob.contractors[0]?.name || null`, so an empty first name also yields
null; in the object branch the name is taken as is. -/
def processJob (r : RawJob) : Job :=
  { id := r.id, unit := r.unit, client_name := r.client_name
    client_email := r.client_email, address := r.address
    service_type := r.service_type, service_date := r.service_date
    lockbox := r.lockbox, status := r.status
    checklist_notes := r.checklist_notes, created_at := r.created_at
    contractor_id := r.contractor_id
    contractor_name :=
      match r.contractors with
      | ContractorsJoin.nullJoin => none
      | ContractorsJoin.oneJoin n => some n
      | ContractorsJoin.manyJoin ns =>
          match ns.head? with
          | none => none
          | some n => if n = "" then none else some n }

/-- `fetchJobs` as a function of the query outcome: on error the cached list
is replaced by `[]` (`setJobs([])`); on success it is replaced by the
processed rows.  The previous cache is never consulted. -/
def fetchJobsResult (result : Except String (List RawJob)) : List Job :=
  match result with
  | Except.error _ => []
  | Except.ok data => data.map processJob

/-- `fetchContractors` as a function of the query outcome: on error the cached
list is replaced by `[]`; on success by the returned rows. -/
def fetchContractorsResult (result : Except String (List Contractor)) : List Contractor :=
  match result with
  | Except.error _ => []
  | Except.ok data => data

/-- The network requests the two mutation handlers can issue. -/
inductive Effect where
  | updateAssign : Nat → Nat → Effect
  | updateStatus : Nat → String → Effect
  | fetchJobsReq : Effect
deriving DecidableEq, Repr

/-- Is this effect the reconciliation fetch of the job list? -/
def Effect.isFetch : Effect → Bool
  | Effect.fetchJobsReq => true
  | _ => false

/-- Is this effect a mutation (persistence) request? -/
def Effect.isMutation : Effect → Bool
  | Effect.updateAssign _ _ => true
  | Effect.updateStatus _ _ => true
  | _ => false

/-- The observable outcome of a mutation handler: the optimistic job list
(set before the persistence request resolves), the final job list (after the
request and, on failure, the reconciliation fetch), and the requests issued
in order. -/
structure HandlerOutcome where
  optimistic : List Job
  final : List Job
  effects : List Effect
deriving DecidableEq, Repr

/-- `handleAssignJob(jobId, contractorId)`.  If the contractor id is not in
the cached list the handler returns at once.  Otherwise it optimistically
rewrites every cached job with the given id, issues the update request, and
on failure reconciles with one `fetchJobs` whose outcome is `fetchResult`. -/
def handleAssignJob (jobs : List Job) (contractors : List Contractor)
    (jobId contractorId : Nat) (updateResult : Except String Unit)
    (fetchResult : Except String (List RawJob)) : HandlerOutcome :=
  match contractors.find? (fun c => c.id == contractorId) with
  | none => { optimistic := jobs, final := jobs, effects := [] }
  | some c =>
    let optimistic := jobs.map (fun job =>
      if job.id == jobId then
        { job with contractor_id := some contractorId
                   contractor_name := some c.name
                   status := "In Progress" }
      else job)
    match updateResult with
    | Except.ok _ =>
        { optimistic := optimistic, final := optimistic
          effects := [Effect.updateAssign jobId contractorId] }
    | Except.error _ =>
        { optimistic := optimistic, final := fetchJobsResult fetchResult
          effects := [Effect.updateAssign jobId contractorId, Effect.fetchJobsReq] }

/-- `handleUpdateJobStatus(jobId, status)`: optimistically rewrites the status
of every cached job with the given id, issues the update request, and on
failure reconciles with one `fetchJobs`. -/
def handleUpdateJobStatus (jobs : List Job) (jobId : Nat) (status : String)
    (updateResult : Except String Unit)
    (fetchResult : Except String (List RawJob)) : HandlerOutcome :=
  let optimistic := jobs.map (fun job =>
    if job.id == jobId then { job with status := status } else job)
  match updateResult with
  | Except.ok _ =>
      { optimistic := optimistic, final := optimistic
        effects := [Effect.updateStatus jobId status] }
  | Except.error _ =>
      { optimistic := optimistic, final := fetchJobsResult fetchResult
        effects := [Effect.updateStatus jobId status, Effect.fetchJobsReq] }

/- Concrete states used to instantiate the theorems. -/

/-- A contractor row linked to identity 7 (shaped like the sample data). -/
def contractor1 : ContractorRow :=
  { id := 1, user_id := some 7, name := "Mikes Maintenance"
    specialty := some "General Repair", rating := some (4 : ℚ)
    avatar := some "M", created_at := 0 }

/-- A contractor row with no linked identity. -/
def contractor2 : ContractorRow :=
  { id := 2, user_id := none, name := "Cleaning Crew Co."
    specialty := some "Deep Cleaning", rating := some (5 : ℚ)
    avatar := some "C", created_at := 0 }

/-- A job row assigned to contractor 1. -/
def jobRow1 : JobRow :=
  { id := 10, unit := "A1", client_name := "Bob", client_email := some "bob@x.com"
    address := "1 Main St", service_type := "Deep Cleaning", service_date := 20260101
    lockbox := some "1234", status := "Pending", checklist_notes := none
    created_at := 0, contractor_id := some 1 }

/-- A job row with no assigned contractor. -/
def jobRow2 : JobRow :=
  { id := 11, unit := "B2", client_name := "Ann", client_email := none
    address := "2 Main St", service_type := "General Repair", service_date := 20260102
    lockbox := none, status := "Pending", checklist_notes := none
    created_at := 0, contractor_id := none }

/-- A database whose only profiled identity, 7, has role contractor and is
linked to contractor 1. -/
def dbContractor : Db :=
  { users := [{ id := 7, email := "c@x.com", created_at := 0 }]
    profiles := [{ id := 7, role := "contractor" }]
    contractors := [contractor1, contractor2]
    jobs := [jobRow1, jobRow2] }

/-- A database whose only profiled identity, 1, has role pm. -/
def dbPm : Db :=
  { users := [{ id := 1, email := "pm@x.com", created_at := 0 }]
    profiles := [{ id := 1, role := "pm" }]
    contractors := [contractor2]
    jobs := [jobRow2] }

/-- A cached client job in status Pending with no contractor. -/
def jobC1 : Job :=
  { id := 10, unit := "A1", client_name := "Bob", client_email := "bob@x.com"
    address := "1 Main St", service_type := "Deep Cleaning", service_date := "2026-01-01"
    lockbox := "1234", status := "Pending", checklist_notes := none
    created_at := none, contractor_id := none, contractor_name := none }

/-- A cached client contractor with id 1. -/
def contractorC1 : Contractor :=
  { id := 1, name := "Mikes Maintenance", specialty := "General Repair"
    rating := (4 : ℚ), avatar := "M" }

/-- A raw fetched job row as the reconciliation query would return it. -/
def rawJob1 : RawJob :=
  { id := 10, unit := "A1", client_name := "Bob", client_email := "bob@x.com"
    address := "1 Main St", service_type := "Deep Cleaning", service_date := "2026-01-01"
    lockbox := "1234", status := "Pending", checklist_notes := none
    created_at := none, contractor_id := none
    contractors := ContractorsJoin.nullJoin }

/- Theorems. -/

/-- Claim C1: for every authenticated caller whose profile role is
contractor, a `jobs` row is readable or updatable by that caller if and only
if the row's `contractor_id` points to a contractor record whose `user_id`
equals the caller's identity; jobs assigned to other contractors, jobs with
no assigned contractor, and jobs whose assigned contractor has no linked
identity are denied. -/
theorem contractor_job_access_iff_linked (db : Db) (uid : Nat) (row : JobRow)
    (h : roleOf db uid = some "contractor") :
    (jobsSelectAllowed db uid row = true ↔
      ∃ c ∈ db.contractors, row.contractor_id = some c.id ∧ c.user_id = some uid) ∧
    (jobsUpdateAllowed db uid row = true ↔
      ∃ c ∈ db.contractors, row.contractor_id = some c.id ∧ c.user_id = some uid) := by
  have had : roleIs db uid "admin" = false := by simp [roleIs, h]
  have hpm : roleIs db uid "pm" = false := by simp [roleIs, h]
  have hco : roleIs db uid "contractor" = true := by simp [roleIs, h]
  constructor <;>
  · simp only [jobsSelectAllowed, jobsUpdateAllowed, had, hpm, hco,
      Bool.false_or, Bool.true_and, assignedToCaller, List.any_eq_true,
      Bool.and_eq_true, beq_iff_eq]
    constructor
    · rintro ⟨c, hc, h1, h2⟩
      exact ⟨c, hc, h2.symm, h1⟩
    · rintro ⟨c, hc, h1, h2⟩
      exact ⟨c, hc, h2, h1.symm⟩

/-- Witness for C1: identity 7 has role contractor in `dbContractor`, and the
equivalence holds at the concrete row `jobRow1`. -/
theorem contractor_job_access_iff_linked_witness :
    roleOf dbContractor 7 = some "contractor" ∧
    ((jobsSelectAllowed dbContractor 7 jobRow1 = true ↔
        ∃ c ∈ dbContractor.contractors,
          jobRow1.contractor_id = some c.id ∧ c.user_id = some 7) ∧
     (jobsUpdateAllowed dbContractor 7 jobRow1 = true ↔
        ∃ c ∈ dbContractor.contractors,
          jobRow1.contractor_id = some c.id ∧ c.user_id = some 7)) :=
  ⟨by decide, contractor_job_access_iff_linked dbContractor 7 jobRow1 (by decide)⟩

/-- Claim C2: for every caller whose profile role is not admin (including
callers with no profile row), `get_all_users` and `delete_user` fail with the
access-denied error raised before any query or deletion: no rows are
returned and the database state is unchanged. -/
theorem admin_rpcs_denied_for_non_admin (db : Db) (uid target : Nat)
    (h : ∀ p ∈ db.profiles, p.id = uid → p.role ≠ "admin") :
    get_all_users db uid = Except.error "Only admins can view all users" ∧
    delete_user db uid target = (db, Except.error "Only admins can delete users") := by
  have hchk : isAdminCheck db uid = false := by
    simp only [isAdminCheck, List.any_eq_false, Bool.and_eq_true, beq_iff_eq, not_and]
    exact h
  constructor
  · simp [get_all_users, hchk]
  · simp [delete_user, hchk]

/-- Witness for C2: identity 7 of `dbContractor` has role contractor, not
admin, and both procedures fail there leaving the state unchanged. -/
theorem admin_rpcs_denied_for_non_admin_witness :
    (∀ p ∈ dbContractor.profiles, p.id = 7 → p.role ≠ "admin") ∧
    (get_all_users dbContractor 7 = Except.error "Only admins can view all users" ∧
     delete_user dbContractor 7 7 =
       (dbContractor, Except.error "Only admins can delete users")) :=
  ⟨by decide, admin_rpcs_denied_for_non_admin dbContractor 7 7 (by decide)⟩

/-- Claim C3: for every authenticated identity with no profile row, every
role-gated operation on `jobs` and `contractors` is denied; the only grants
that still apply are the authenticated read of `contractors` and, on
`profiles`, reading one's own row. -/
theorem no_profile_role_gated_denied (db : Db) (uid : Nat)
    (jrow : JobRow) (crow : ContractorRow) (prow : Profile)
    (h : roleOf db uid = none) :
    jobsSelectAllowed db uid jrow = false ∧
    jobsInsertAllowed db uid = false ∧
    jobsUpdateAllowed db uid jrow = false ∧
    jobsDeleteAllowed db uid jrow = false ∧
    contractorsInsertAllowed db uid = false ∧
    contractorsUpdateAllowed db uid crow = false ∧
    contractorsDeleteAllowed db uid crow = false ∧
    contractorsSelectAllowed db uid crow = true ∧
    (profilesSelectAllowed db uid prow = true ↔ uid = prow.id) := by
  have hr : ∀ r, roleIs db uid r = false := by
    intro r
    simp [roleIs, h]
  simp [jobsSelectAllowed, jobsInsertAllowed, jobsUpdateAllowed, jobsDeleteAllowed,
    contractorsInsertAllowed, contractorsUpdateAllowed, contractorsDeleteAllowed,
    contractorsSelectAllowed, profilesSelectAllowed, hr]

/-- Witness for C3: identity 99 has no profile row in `dbContractor`, and the
denials and residual grants hold at concrete rows. -/
theorem no_profile_role_gated_denied_witness :
    roleOf dbContractor 99 = none ∧
    (jobsSelectAllowed dbContractor 99 jobRow1 = false ∧
     jobsInsertAllowed dbContractor 99 = false ∧
     jobsUpdateAllowed dbContractor 99 jobRow1 = false ∧
     jobsDeleteAllowed dbContractor 99 jobRow1 = false ∧
     contractorsInsertAllowed dbContractor 99 = false ∧
     contractorsUpdateAllowed dbContractor 99 contractor1 = false ∧
     contractorsDeleteAllowed dbContractor 99 contractor1 = false ∧
     contractorsSelectAllowed dbContractor 99 contractor1 = true ∧
     (profilesSelectAllowed dbContractor 99 { id := 7, role := "contractor" } = true ↔
        99 = ({ id := 7, role := "contractor" } : Profile).id)) :=
  ⟨by decide,
   no_profile_role_gated_denied dbContractor 99 jobRow1 contractor1
     { id := 7, role := "contractor" } (by decide)⟩

/-- Claim C4: the claim states that a pm caller's permitted operations on
`contractors` are exactly read all and create/update all, with row deletion
not permitted.  The policy "Allow PMs to create/update contractors" is
declared FOR ALL, which also reaches DELETE, so at this concrete state the
pm caller IS permitted to delete a contractor row, contradicting the claim
(and the policy's own name). -/
theorem pm_can_delete_contractors :
    roleOf dbPm 1 = some "pm" ∧
    contractorsSelectAllowed dbPm 1 contractor2 = true ∧
    contractorsInsertAllowed dbPm 1 = true ∧
    contractorsUpdateAllowed dbPm 1 contractor2 = true ∧
    contractorsDeleteAllowed dbPm 1 contractor2 = true := by
  decide

/-- Claim C5: for every cached job in status Pending and every contractor id
found in the cached contractor list, `handleAssignJob` immediately (in the
optimistic list, set before the persistence request resolves) contains that
job with status In Progress, `contractor_id` the given id, and
`contractor_name` the found contractor's name. -/
theorem assign_job_optimistic (jobs : List Job) (contractors : List Contractor)
    (jobId contractorId : Nat) (c : Contractor) (job : Job)
    (ur : Except String Unit) (fr : Except String (List RawJob))
    (hc : contractors.find? (fun x => x.id == contractorId) = some c)
    (hj : job ∈ jobs) (hid : job.id = jobId) (hst : job.status = "Pending") :
    { job with contractor_id := some contractorId
               contractor_name := some c.name
               status := "In Progress" } ∈
      (handleAssignJob jobs contractors jobId contractorId ur fr).optimistic := by
  cases ur <;>
  · simp only [handleAssignJob, hc]
    refine List.mem_map.mpr ⟨job, hj, ?_⟩
    simp [hid]

/-- Witness for C5: assigning contractor 1 to the concrete Pending job 10
immediately yields the updated job in the optimistic list. -/
theorem assign_job_optimistic_witness :
    [contractorC1].find? (fun x => x.id == 1) = some contractorC1 ∧
    jobC1 ∈ [jobC1] ∧ jobC1.id = 10 ∧ jobC1.status = "Pending" ∧
    { jobC1 with contractor_id := some 1
                 contractor_name := some contractorC1.name
                 status := "In Progress" } ∈
      (handleAssignJob [jobC1] [contractorC1] 10 1 (Except.ok ())
        (Except.ok [])).optimistic :=
  ⟨by decide, by decide, by decide, by decide,
   assign_job_optimistic [jobC1] [contractorC1] 10 1 contractorC1 jobC1
     (Except.ok ()) (Except.ok []) (by decide) (by decide) (by decide) (by decide)⟩

/-- Claim C6: for each of the two mutations (assign contractor, change
status) whose persistence request fails, the handler issues exactly one
reconciliation fetch of the job list and exactly one mutation request (no
retry, no second fetch), and the final job list is the fetched,
reprocessed result in place of the optimistic state. -/
theorem mutation_failure_single_reconcile (jobs : List Job)
    (contractors : List Contractor) (jobId contractorId : Nat) (status : String)
    (c : Contractor) (e : String) (fr : Except String (List RawJob))
    (hc : contractors.find? (fun x => x.id == contractorId) = some c) :
    (((handleAssignJob jobs contractors jobId contractorId (Except.error e) fr).effects.filter
        Effect.isFetch).length = 1 ∧
     ((handleAssignJob jobs contractors jobId contractorId (Except.error e) fr).effects.filter
        Effect.isMutation).length = 1 ∧
     (handleAssignJob jobs contractors jobId contractorId (Except.error e) fr).final =
       fetchJobsResult fr) ∧
    (((handleUpdateJobStatus jobs jobId status (Except.error e) fr).effects.filter
        Effect.isFetch).length = 1 ∧
     ((handleUpdateJobStatus jobs jobId status (Except.error e) fr).effects.filter
        Effect.isMutation).length = 1 ∧
     (handleUpdateJobStatus jobs jobId status (Except.error e) fr).final =
       fetchJobsResult fr) := by
  simp [handleAssignJob, handleUpdateJobStatus, hc, Effect.isFetch, Effect.isMutation,
    List.filter]

/-- Witness for C6: at a concrete failing assignment and a concrete failing
status change, the effect trace holds one mutation request and one
reconciliation fetch, and the final list is the fetched result. -/
theorem mutation_failure_single_reconcile_witness :
    [contractorC1].find? (fun x => x.id == 1) = some contractorC1 ∧
    ((((handleAssignJob [jobC1] [contractorC1] 10 1 (Except.error "down")
          (Except.ok [rawJob1])).effects.filter Effect.isFetch).length = 1 ∧
      (((handleAssignJob [jobC1] [contractorC1] 10 1 (Except.error "down")
          (Except.ok [rawJob1])).effects.filter Effect.isMutation).length = 1) ∧
      (handleAssignJob [jobC1] [contractorC1] 10 1 (Except.error "down")
          (Except.ok [rawJob1])).final = fetchJobsResult (Except.ok [rawJob1])) ∧
     (((handleUpdateJobStatus [jobC1] 10 "Completed" (Except.error "down")
          (Except.ok [rawJob1])).effects.filter Effect.isFetch).length = 1 ∧
      (((handleUpdateJobStatus [jobC1] 10 "Completed" (Except.error "down")
          (Except.ok [rawJob1])).effects.filter Effect.isMutation).length = 1) ∧
      (handleUpdateJobStatus [jobC1] 10 "Completed" (Except.error "down")
          (Except.ok [rawJob1])).final = fetchJobsResult (Except.ok [rawJob1]))) :=
  ⟨by decide,
   mutation_failure_single_reconcile [jobC1] [contractorC1] 10 1 "Completed"
     contractorC1 "down" (Except.ok [rawJob1]) (by decide)⟩

/-- Claim C7: the storage layer rejects, on insert and on update, any
`profiles` row whose role is outside the three-element enumeration, any
`contractors` row whose rating is outside `[0, 5]`, and any `jobs` row whose
status is outside the three-element enumeration, leaving the state
unchanged. -/
theorem check_constraints_reject (db : Db) (p : Profile) (c : ContractorRow)
    (j : JobRow) (pid cid jid : Nat) (r : ℚ)
    (hrole : p.role ∉ (["pm", "contractor", "admin"] : List String))
    (hrat : c.rating = some r) (hr : r < 0 ∨ 5 < r)
    (hstatus : j.status ∉ (["Pending", "In Progress", "Completed"] : List String))
    (hpid : db.profiles.any (fun q => q.id == pid) = true)
    (hcid : db.contractors.any (fun q => q.id == cid) = true)
    (hjid : db.jobs.any (fun q => q.id == jid) = true) :
    insertProfile db p = Except.error "profiles_role_check" ∧
    updateProfileRole db pid p.role = Except.error "profiles_role_check" ∧
    insertContractor db c = Except.error "contractors_rating_check" ∧
    updateContractorRating db cid c.rating = Except.error "contractors_rating_check" ∧
    insertJob db j = Except.error "jobs_status_check" ∧
    updateJobRowStatus db jid j.status = Except.error "jobs_status_check" := by
  simp only [List.mem_cons, List.not_mem_nil, or_false, not_or] at hrole hstatus
  have h1 : roleCheck p.role = false := by
    simp [roleCheck, hrole.1, hrole.2.1, hrole.2.2]
  have h2 : ratingCheck c.rating = false := by
    rw [hrat]
    rcases hr with hr | hr
    · simp [ratingCheck, decide_eq_false hr.not_le]
    · simp [ratingCheck, decide_eq_false hr.not_le]
  have h3 : statusCheck j.status = false := by
    simp [statusCheck, hstatus.1, hstatus.2.1, hstatus.2.2]
  refine ⟨?_, ?_, ?_, ?_, ?_, ?_⟩
  · simp [insertProfile, h1]
  · simp [updateProfileRole, hpid, h1]
  · simp [insertContractor, h2]
  · simp [updateContractorRating, hcid, h2]
  · simp [insertJob, h3]
  · simp [updateJobRowStatus, hjid, h3]

/-- Witness for C7: role `boss`, rating `6` and status `Done` are each
rejected by the corresponding insert and update against `dbContractor`. -/
theorem check_constraints_reject_witness :
    (({ id := 8, role := "boss" } : Profile).role ∉
        (["pm", "contractor", "admin"] : List String)) ∧
    ({ contractor1 with rating := some (6 : ℚ) } : ContractorRow).rating = some (6 : ℚ) ∧
    ((6 : ℚ) < 0 ∨ 5 < (6 : ℚ)) ∧
    (({ jobRow2 with status := "Done" } : JobRow).status ∉
        (["Pending", "In Progress", "Completed"] : List String)) ∧
    (insertProfile dbContractor { id := 8, role := "boss" } =
        Except.error "profiles_role_check" ∧
     updateProfileRole dbContractor 7 ({ id := 8, role := "boss" } : Profile).role =
        Except.error "profiles_role_check" ∧
     insertContractor dbContractor { contractor1 with rating := some (6 : ℚ) } =
        Except.error "contractors_rating_check" ∧
     updateContractorRating dbContractor 1
        ({ contractor1 with rating := some (6 : ℚ) } : ContractorRow).rating =
        Except.error "contractors_rating_check" ∧
     insertJob dbContractor { jobRow2 with status := "Done" } =
        Except.error "jobs_status_check" ∧
     updateJobRowStatus dbContractor 10 ({ jobRow2 with status := "Done" } : JobRow).status =
        Except.error "jobs_status_check") :=
  ⟨by decide, by decide, by norm_num, by decide,
   check_constraints_reject dbContractor { id := 8, role := "boss" }
     { contractor1 with rating := some (6 : ℚ) } { jobRow2 with status := "Done" }
     7 1 10 (6 : ℚ) (by decide) (by decide) (by norm_num) (by decide)
     (by decide) (by decide) (by decide)⟩

/-- Claim C8: deleting an identity leaves a linked contractor row in place
with `user_id` cleared to null, and deleting a contractor leaves a
referencing job row in place with `contractor_id` cleared to null; neither
delete cascades to the dependent row. -/
theorem fk_deletes_set_null (db : Db) (target cid : Nat)
    (c : ContractorRow) (j : JobRow)
    (hc : c ∈ db.contractors) (hcu : c.user_id = some target)
    (hj : j ∈ db.jobs) (hjc : j.contractor_id = some cid) :
    { c with user_id := none } ∈ (deleteAuthUserCascade db target).contractors ∧
    { j with contractor_id := none } ∈ (deleteContractorCascade db cid).jobs := by
  constructor
  · simp only [deleteAuthUserCascade]
    refine List.mem_map.mpr ⟨c, hc, ?_⟩
    simp [hcu]
  · simp only [deleteContractorCascade]
    refine List.mem_map.mpr ⟨j, hj, ?_⟩
    simp [hjc]

/-- Witness for C8: deleting identity 7 keeps `contractor1` with its link
cleared, and deleting contractor 1 keeps `jobRow1` with its reference
cleared, in `dbContractor`. -/
theorem fk_deletes_set_null_witness :
    contractor1 ∈ dbContractor.contractors ∧ contractor1.user_id = some 7 ∧
    jobRow1 ∈ dbContractor.jobs ∧ jobRow1.contractor_id = some 1 ∧
    ({ contractor1 with user_id := none } ∈
        (deleteAuthUserCascade dbContractor 7).contractors ∧
     { jobRow1 with contractor_id := none } ∈
        (deleteContractorCascade dbContractor 1).jobs) :=
  ⟨by decide, by decide, by decide, by decide,
   fk_deletes_set_null dbContractor 7 1 contractor1 jobRow1
     (by decide) (by decide) (by decide) (by decide)⟩

/-- Claim C9: a failed jobs fetch replaces the cached job list with the empty
list, and a failed contractors fetch likewise replaces the cached contractor
list with the empty list; the previously cached lists are not preserved. -/
theorem fetch_failure_empties_caches (msgJ msgC : String) :
    fetchJobsResult (Except.error msgJ) = [] ∧
    fetchContractorsResult (Except.error msgC) = [] :=
  ⟨rfl, rfl⟩

/-- Claim C10: when the contractor id is not in the cached contractor list,
`handleAssignJob` is a complete no-op for any job id: the optimistic and
final job lists equal the input list and no request is issued. -/
theorem assign_unknown_contractor_noop (jobs : List Job)
    (contractors : List Contractor) (jobId contractorId : Nat)
    (ur : Except String Unit) (fr : Except String (List RawJob))
    (h : ∀ c ∈ contractors, c.id ≠ contractorId) :
    handleAssignJob jobs contractors jobId contractorId ur fr =
      { optimistic := jobs, final := jobs, effects := [] } := by
  have hf : contractors.find? (fun c => c.id == contractorId) = none := by
    rw [List.find?_eq_none]
    intro c hc
    simp [h c hc]
  simp [handleAssignJob, hf]

/-- Witness for C10: contractor id 3 is absent from the cached list, and the
handler returns the input list with no effects. -/
theorem assign_unknown_contractor_noop_witness :
    (∀ c ∈ [contractorC1], c.id ≠ 3) ∧
    handleAssignJob [jobC1] [contractorC1] 10 3 (Except.ok ()) (Except.ok []) =
      { optimistic := [jobC1], final := [jobC1], effects := [] } :=
  ⟨by decide,
   assign_unknown_contractor_noop [jobC1] [contractorC1] 10 3
     (Except.ok ()) (Except.ok []) (by decide)⟩

end FlashFix
